import Mathlib

/-!
Shallow embedding of `assets/component-cart-items.js` (the `CartItemsComponent`
custom element of a Shopify theme customization).

The component reacts to quantity-selector update events, issues a cart-change
request, and reconciles its DOM section against the server response.  We model
the component's observable DOM state explicitly, and the asynchronous fetch as
a synchronous "start" step (everything up to the `fetch` call) followed by a
"settle" step parameterised by the outcome of the request.  External side
effects (the request body, morphing, event dispatch, console logging, shimmer
animations) are recorded in an ordered effect trace.
-/

namespace CartItems

/-- JS truthiness of a string: every string except the empty string is truthy. -/
def truthy (s : String) : Bool := s != ""

/-- JS array indexing `xs[i]` with a possibly negative or out-of-range index:
out-of-range access yields `undefined`, modelled as `none`. -/
def jsIndex {α : Type} (xs : List α) (i : Int) : Option α :=
  if 0 ≤ i then xs[i.toNat]? else none

/-- Leading decimal digits of a character list, `none` when there is no digit. -/
def leadingNat (cs : List Char) : Option Nat :=
  let ds := cs.takeWhile (·.isDigit)
  if ds.isEmpty then none
  else some (ds.foldl (fun a c => a * 10 + (c.toNat - '0'.toNat)) 0)

/-- JS `parseInt(s, 10)`: skip leading whitespace, optional sign, then leading
digits; `none` models `NaN` (no digits found). -/
def parseIntJs (s : String) : Option Int :=
  let cs := s.data.dropWhile (·.isWhitespace)
  match cs with
  | '-' :: rest => (leadingNat rest).map (fun n => -(n : Int))
  | '+' :: rest => (leadingNat rest).map (fun n => (n : Int))
  | _ => (leadingNat cs).map (fun n => (n : Int))

/-- An `<input>` inside a quantity selector: its current `value` and its
`defaultValue` (the value attribute it was rendered with). -/
structure QuantityInput where
  value : String
  defaultValue : String
deriving Repr, DecidableEq

/-- A quantity selector ref element; `input` is the result of
`querySelector(\x7binput\x7d)` on it. -/
structure QuantitySelector where
  input : Option QuantityInput
deriving Repr, DecidableEq

/-- A cart item row (`refs.cartItemRows` entry).  `id` is the DOM node
identity, `key`/`parentKey` are `data-key`/`data-parent-key` (absent
attributes are `none`), `removing` is the `removing` CSS class, and
`pendingRemove` marks a row whose `onAnimationEnd` removal callback has been
registered. `hasTextComponent` records whether a nested `text-component`
exists. -/
structure CartItemRow where
  id : Nat
  key : Option String
  parentKey : Option String
  removing : Bool
  pendingRemove : Bool
  hasTextComponent : Bool
deriving Repr, DecidableEq

/-- The component's observable DOM state: the `data-section-id` attribute, the
`cart-items-disabled` class, the `cartTotal` ref, the row and quantity-selector
ref arrays, and the per-line `cartItemError-N` text refs and
`cartItemErrorContainer-N` refs (the Bool is the `hidden` class). -/
structure ComponentState where
  sectionIdAttr : Option String
  disabled : Bool
  hasCartTotal : Bool
  cartItemRows : List CartItemRow
  quantitySelectors : List QuantitySelector
  cartItemErrorTexts : List (Int × String)
  cartItemErrorHidden : List (Int × Bool)
deriving Repr, DecidableEq

/-- Externally observable side effects, in program order. -/
inductive Effect where
  /-- The `fetch` to `cart_change_url` with the given body fields. -/
  | request (line : Int) (quantity : Int) (action : String) (sectionId : String)
  /-- `cartTotal.shimmer()`. -/
  | shimmerTotal
  /-- `textComponent.shimmer()` on the row at the given zero-based index. -/
  | shimmerRow (idx : Nat)
  /-- `resetShimmer(this)`. -/
  | resetShimmer
  /-- `this.#updateQuantitySelectors(parsedResponseText)`. -/
  | updateQuantitySelectors
  /-- `this.dispatchEvent(new CartUpdateEvent(..))` with the given section id
  and item count (`none` models `NaN`). -/
  | dispatchCartUpdate (sectionId : String) (itemCount : Option Int)
  /-- `morphSection(sectionId, html)`; the html is `undefined` when absent. -/
  | morph (sectionId : String) (html : Option String)
  /-- `this.#updateCartQuantitySelectorButtonStates()`. -/
  | updateButtonStates
  /-- `console.error(error)` in the catch handler. -/
  | consoleError (msg : String)
deriving Repr, DecidableEq

/-- Outcome of the synchronous part of a handler: it returned without doing
anything, it threw, or it started a fetch for the given section id. -/
inductive SyncResult where
  | noop
  | thrown (msg : String)
  | started (sectionId : String)
deriving Repr, DecidableEq

/-- The shape of the parsed cart-change response: an optional `errors` string,
an optional `sections` object (section id to html), and an optional `items`
array (variant id and quantity). -/
structure ParsedResponse where
  errors : Option String
  sections : Option (List (String × String))
  items : Option (List (Int × Int))
deriving Repr, DecidableEq

/-- Outcome of the request as seen by the promise chain: the fetch (or
`response.text()`) rejected with an error, or it resolved with response text
whose `JSON.parse` either throws (`resolve none`) or yields a parsed value. -/
inductive FetchOutcome where
  | reject (msg : String)
  | resolve (parsed : Option ParsedResponse)
deriving Repr, DecidableEq

/-- External environment: `prefersReducedMotion()` and the DOMParser oracle
giving, for a section html string, the `textContent` of its hidden
`[ref="cartItemCount"]` element (`none` when that element is absent). -/
structure Env where
  reducedMotion : Bool
  cartItemCountText : String → Option String

/-- Message of the `SyntaxError` thrown by `JSON.parse` on malformed text. -/
def jsonSyntaxErrorMsg : String := "SyntaxError: Unexpected token"

/-- Message of the `TypeError` thrown by reading `sections[sectionId]` when
the response has no `sections` field. -/
def sectionsTypeErrorMsg : String := "TypeError: Cannot read properties of undefined"

/-- The `sectionId` getter (source lines 296-302): reads `data-section-id` and
throws when it is missing or empty (both are falsy). -/
def sectionId (s : ComponentState) : Except String String :=
  match s.sectionIdAttr with
  | none => .error "Section id missing"
  | some sid => if sid = "" then .error "Section id missing" else .ok sid

/-- `#disableCartItems` (source lines 241-243). -/
def disableCartItems (s : ComponentState) : ComponentState :=
  { s with disabled := true }

/-- `#enableCartItems` (source lines 248-250). -/
def enableCartItems (s : ComponentState) : ComponentState :=
  { s with disabled := false }

/-- The inputs to `updateQuantity` (source lines 104-110). -/
structure UpdateConfig where
  line : Int
  quantity : Int
  action : String
deriving Repr, DecidableEq

/-- The synchronous part of `updateQuantity` (source lines 111-136): disable
the cart items, read `sectionId` (which may throw), shimmer the cart total if
present, and issue the fetch.  The async continuation is
`updateQuantitySettle`. -/
def updateQuantityStart (s : ComponentState) (cfg : UpdateConfig) :
    ComponentState × List Effect × SyncResult :=
  let s1 := disableCartItems s
  match sectionId s1 with
  | .error m => (s1, [], .thrown m)
  | .ok sid =>
    ((s1, (if s1.hasCartTotal then [Effect.shimmerTotal] else []) ++
      [Effect.request cfg.line cfg.quantity cfg.action sid], .started sid))

/-- `#handleCartError` (source lines 197-213): revert the line's quantity
input to its default value, then write the error text and unhide the error
container; throws when the input or either error ref is missing. -/
def handleCartError (s : ComponentState) (line : Int) (errs : String) :
    Except String ComponentState :=
  match jsIndex s.quantitySelectors (line - 1) with
  | none => .error "Quantity input not found"
  | some sel =>
    match sel.input with
    | none => .error "Quantity input not found"
    | some inp =>
      let sel2 : QuantitySelector :=
        { sel with input := some { inp with value := inp.defaultValue } }
      let s1 := { s with quantitySelectors := s.quantitySelectors.set (line - 1).toNat sel2 }
      match s1.cartItemErrorTexts.lookup line with
      | none => .error "Cart item error not found"
      | some _ =>
        match s1.cartItemErrorHidden.lookup line with
        | none => .error "Cart item error container not found"
        | some _ =>
          .ok { s1 with
            cartItemErrorTexts :=
              s1.cartItemErrorTexts.map (fun p => if p.1 = line then (p.1, errs) else p),
            cartItemErrorHidden :=
              s1.cartItemErrorHidden.map (fun p => if p.1 = line then (p.1, false) else p) }

/-- The item count read from the server-rendered fragment (source lines
155-157): the `textContent` of `[ref="cartItemCount"]` when present and
truthy is fed to `parseInt`, otherwise the count is 0. -/
def newCartItemCount (env : Env) (html : String) : Option Int :=
  match env.cartItemCountText html with
  | none => some 0
  | some t => if truthy t then parseIntJs t else some 0

/-- The promise-chain continuation of `updateQuantity` (source lines 137-180):
the two `then` handlers, the `catch` that logs every error, and the `finally`
that re-enables the cart items. -/
def updateQuantitySettle (env : Env) (s : ComponentState) (cfg : UpdateConfig)
    (sid : String) : FetchOutcome → ComponentState × List Effect
  | .reject m => (enableCartItems s, [.consoleError m])
  | .resolve none => (enableCartItems s, [.consoleError jsonSyntaxErrorMsg])
  | .resolve (some p) =>
    if truthy (p.errors.getD "") then
      match handleCartError s cfg.line (p.errors.getD "") with
      | .error m => (enableCartItems s, [.resetShimmer, .consoleError m])
      | .ok s1 => (enableCartItems s1, [.resetShimmer])
    else
      match p.sections with
      | none => (enableCartItems s, [.resetShimmer, .consoleError sectionsTypeErrorMsg])
      | some secs =>
        let html := secs.lookup sid
        let count := newCartItemCount env (html.getD "undefined")
        (enableCartItems s,
          [Effect.resetShimmer] ++
          (if p.items.isSome then [Effect.updateQuantitySelectors] else []) ++
          [Effect.dispatchCartUpdate sid count, Effect.morph sid html,
           Effect.updateButtonStates])

/-- `onLineItemRemove` (source lines 73-102): request quantity 0 with action
`clear`, then remove the row at zero-based index `line - 1` together with all
rows whose `data-parent-key` equals its `data-key` (JS `===`, so two absent
attributes compare equal); immediately under reduced motion, otherwise by
adding the `removing` class and registering an animation-end callback. -/
def onLineItemRemove (env : Env) (s : ComponentState) (line : Int) :
    ComponentState × List Effect × SyncResult :=
  match updateQuantityStart s { line := line, quantity := 0, action := "clear" } with
  | (s1, eff, .thrown m) => (s1, eff, .thrown m)
  | (s1, eff, r) =>
    match jsIndex s1.cartItemRows (line - 1) with
    | none => (s1, eff, r)
    | some target =>
      let nested := s1.cartItemRows.filter (fun row => row.parentKey == target.key)
      let removeIds := (target :: nested).map (·.id)
      if env.reducedMotion then
        ({ s1 with cartItemRows :=
            s1.cartItemRows.filter (fun row => !(decide (row.id ∈ removeIds))) }, eff, r)
      else
        ({ s1 with cartItemRows :=
            s1.cartItemRows.map (fun row =>
              if row.id ∈ removeIds then
                { row with removing := true, pendingRemove := true }
              else row) }, eff, r)

/-- Running every registered animation-end callback: each row whose removal
callback is pending is removed from the DOM. -/
def afterAnimations (s : ComponentState) : ComponentState :=
  { s with cartItemRows := s.cartItemRows.filter (fun row => !row.pendingRemove) }

/-- The detail of a `QuantitySelectorUpdateEvent`: the new quantity and the
cart line (`none` when absent; `some 0` is falsy like `undefined`). -/
structure QtyEvent where
  quantity : Int
  cartLine : Option Int
deriving Repr, DecidableEq

/-- `#onQuantityChange` (source lines 47-67): ignore events with a falsy
`cartLine`; treat quantity 0 as removal; otherwise request the change and
shimmer the affected row's text component. -/
def onQuantityChange (env : Env) (s : ComponentState) (ev : QtyEvent) :
    ComponentState × List Effect × SyncResult :=
  match ev.cartLine with
  | none => (s, [], .noop)
  | some line =>
    if line = 0 then (s, [], .noop)
    else if ev.quantity = 0 then onLineItemRemove env s line
    else
      match updateQuantityStart s { line := line, quantity := ev.quantity, action := "change" } with
      | (s1, eff, .thrown m) => (s1, eff, .thrown m)
      | (s1, eff, r) =>
        match jsIndex s1.cartItemRows (line - 1) with
        | none => (s1, eff, r)
        | some row =>
          (s1, eff ++ (if row.hasTextComponent then [Effect.shimmerRow (line - 1).toNat] else []),
           r)

/-- Modelled from the spec: the `debounce` helper from `@theme/utilities` is
not part of this repository; per the spec it debounces rapid quantity-change
events.  This is a trailing-edge debounce: each call resets a `delay`-ms
timer, and when the timer expires the wrapped handler runs with the most
recent arguments.  Given the ordered list of call times and payloads, it
yields the payloads the wrapped handler actually receives: a call's timer
survives exactly when no further call arrives within `delay` ms. -/
def debounceFired {α : Type} (delay : Nat) : List (Nat × α) → List α
  | [] => []
  | [(_, a)] => [a]
  | (t, a) :: (t2, b) :: rest =>
    (if t + delay ≤ t2 then [a] else []) ++ debounceFired delay ((t2, b) :: rest)

/-- Whether an effect is the cart-change fetch. -/
def isRequest : Effect → Bool
  | .request _ _ _ _ => true
  | _ => false

/-- Number of cart-change requests in an effect trace. -/
def countRequests (l : List Effect) : Nat := (l.filter isRequest).length

/-! ### Helper lemmas -/

theorem jsIndex_eq_some {α : Type} {xs : List α} {i : Int} {x : α}
    (h : jsIndex xs i = some x) : 0 ≤ i ∧ xs[i.toNat]? = some x := by
  unfold jsIndex at h
  split at h
  · exact ⟨by assumption, h⟩
  · exact absurd h (by simp)

theorem jsIndex_lt_length {α : Type} {xs : List α} {i : Int} {x : α}
    (h : jsIndex xs i = some x) : i.toNat < xs.length := by
  obtain ⟨-, hget⟩ := jsIndex_eq_some h
  by_contra hle
  rw [List.getElem?_eq_none (Nat.le_of_not_lt hle)] at hget
  exact Option.noConfusion hget

theorem jsIndex_set_self {α : Type} {xs : List α} {i : Int} {x : α} (a : α)
    (h : jsIndex xs i = some x) : jsIndex (xs.set i.toNat a) i = some a := by
  obtain ⟨hi, -⟩ := jsIndex_eq_some h
  unfold jsIndex
  rw [if_pos hi]
  exact List.getElem?_set_eq_of_lt a (jsIndex_lt_length h)

theorem jsIndex_mem {α : Type} {xs : List α} {i : Int} {x : α}
    (h : jsIndex xs i = some x) : x ∈ xs := by
  obtain ⟨-, hget⟩ := jsIndex_eq_some h
  exact List.getElem?_mem hget

theorem lookup_map_overwrite {β : Type} (l : List (Int × β)) (k : Int) (v : β) :
    (l.map (fun p => if p.1 = k then (p.1, v) else p)).lookup k =
      (l.lookup k).map (fun _ => v) := by
  induction l with
  | nil => rfl
  | cons hd tl ih =>
    obtain ⟨a, b⟩ := hd
    by_cases h : a = k
    · subst h
      simp [List.lookup_cons, ih]
    · have hbeq : (k == a) = false := by
        rw [beq_eq_false_iff_ne]
        exact fun hk => h hk.symm
      simp [List.lookup_cons, h, hbeq, ih]

/-- After any settle outcome the `cart-items-disabled` class is removed by the
`finally` handler. -/
theorem settle_disabled_false (env : Env) (s : ComponentState) (cfg : UpdateConfig)
    (sid : String) (outcome : FetchOutcome) :
    (updateQuantitySettle env s cfg sid outcome).1.disabled = false := by
  cases outcome with
  | reject m => rfl
  | resolve p =>
    cases p with
    | none => rfl
    | some p =>
      simp only [updateQuantitySettle]
      split
      · split <;> rfl
      · split
        · rfl
        · rfl

/-- When the line's quantity input and both error refs exist,
`#handleCartError` succeeds: it reverts the input, writes the error text, and
unhides the error container, leaving rows and the disabled class alone. -/
theorem handleCartError_ok (s : ComponentState) (line : Int) (errs : String)
    (sel : QuantitySelector) (inp : QuantityInput)
    (hsel : jsIndex s.quantitySelectors (line - 1) = some sel)
    (hinp : sel.input = some inp)
    (htext : (s.cartItemErrorTexts.lookup line).isSome = true)
    (hhid : (s.cartItemErrorHidden.lookup line).isSome = true) :
    ∃ s2, handleCartError s line errs = .ok s2 ∧
      jsIndex s2.quantitySelectors (line - 1) =
        some ({ sel with input := some { inp with value := inp.defaultValue } }) ∧
      s2.cartItemErrorTexts.lookup line = some errs ∧
      s2.cartItemErrorHidden.lookup line = some false ∧
      s2.disabled = s.disabled ∧
      s2.cartItemRows = s.cartItemRows := by
  obtain ⟨t, ht⟩ := Option.isSome_iff_exists.mp htext
  obtain ⟨hv, hh⟩ := Option.isSome_iff_exists.mp hhid
  simp only [handleCartError, hsel, hinp, ht, hh]
  refine ⟨_, rfl, ?_, ?_, ?_, rfl, rfl⟩
  · exact jsIndex_set_self _ hsel
  · rw [lookup_map_overwrite, ht]
    rfl
  · rw [lookup_map_overwrite, hh]
    rfl

/-! ### Claim theorems -/

/-- Claim C1: when the parsed cart-change response has a truthy `errors`
field, the component reverts the affected line's quantity input to its
`defaultValue`, writes the `errors` value into the line's inline error
element, unhides the error container, and the effect trace is exactly the
shimmer reset — in particular no `morphSection` and no `CartUpdateEvent`. -/
theorem cart_error_response_reverts_input (env : Env) (s : ComponentState)
    (cfg : UpdateConfig) (sid : String) (p : ParsedResponse) (errs : String)
    (sel : QuantitySelector) (inp : QuantityInput)
    (herr : p.errors = some errs) (htr : truthy errs = true)
    (hsel : jsIndex s.quantitySelectors (cfg.line - 1) = some sel)
    (hinp : sel.input = some inp)
    (htext : (s.cartItemErrorTexts.lookup cfg.line).isSome = true)
    (hhid : (s.cartItemErrorHidden.lookup cfg.line).isSome = true) :
    jsIndex (updateQuantitySettle env s cfg sid (.resolve (some p))).1.quantitySelectors
        (cfg.line - 1) =
      some ({ sel with input := some { inp with value := inp.defaultValue } }) ∧
    ((updateQuantitySettle env s cfg sid (.resolve (some p))).1.cartItemErrorTexts.lookup
        cfg.line) = some errs ∧
    ((updateQuantitySettle env s cfg sid (.resolve (some p))).1.cartItemErrorHidden.lookup
        cfg.line) = some false ∧
    (updateQuantitySettle env s cfg sid (.resolve (some p))).2 = [Effect.resetShimmer] := by
  obtain ⟨s2, hok, h1, h2, h3, -, -⟩ :=
    handleCartError_ok s cfg.line errs sel inp hsel hinp htext hhid
  simp [updateQuantitySettle, herr, htr, hok, enableCartItems, h1, h2, h3]

/-- Witness for C1 at a one-line cart whose input currently reads "5" with
default "2" and whose error container is hidden. -/
theorem cart_error_response_reverts_input_witness :
    (ParsedResponse.mk (some "Invalid") none none).errors = some "Invalid" ∧
    truthy "Invalid" = true ∧
    jsIndex [QuantitySelector.mk (some (QuantityInput.mk "5" "2"))] ((1 : Int) - 1) =
      some (QuantitySelector.mk (some (QuantityInput.mk "5" "2"))) ∧
    (jsIndex
        (updateQuantitySettle (Env.mk true (fun _ => none))
          (ComponentState.mk (some "s1") true true []
            [QuantitySelector.mk (some (QuantityInput.mk "5" "2"))] [(1, "")] [(1, true)])
          (UpdateConfig.mk 1 7 "change") "s1"
          (.resolve (some (ParsedResponse.mk (some "Invalid") none none)))).1.quantitySelectors
        ((1 : Int) - 1) =
      some (QuantitySelector.mk (some (QuantityInput.mk "2" "2")))) ∧
    ((updateQuantitySettle (Env.mk true (fun _ => none))
        (ComponentState.mk (some "s1") true true []
          [QuantitySelector.mk (some (QuantityInput.mk "5" "2"))] [(1, "")] [(1, true)])
        (UpdateConfig.mk 1 7 "change") "s1"
        (.resolve (some (ParsedResponse.mk (some "Invalid") none none)))).2 =
      [Effect.resetShimmer]) := by
  refine ⟨rfl, by decide, by decide, ?_⟩
  have h := cart_error_response_reverts_input (Env.mk true (fun _ => none))
    (ComponentState.mk (some "s1") true true []
      [QuantitySelector.mk (some (QuantityInput.mk "5" "2"))] [(1, "")] [(1, true)])
    (UpdateConfig.mk 1 7 "change") "s1" (ParsedResponse.mk (some "Invalid") none none)
    "Invalid" (QuantitySelector.mk (some (QuantityInput.mk "5" "2")))
    (QuantityInput.mk "5" "2") rfl (by decide) (by decide) rfl (by decide) (by decide)
  exact ⟨h.1, h.2.2.2⟩

/-- Claim C8: a quantity-selector update event whose `cartLine` is falsy
(absent or 0) makes `#onQuantityChange` return early: no request is sent, no
effect is produced, and the component state is unchanged. -/
theorem onQuantityChange_falsy_line_noop (env : Env) (s : ComponentState) (ev : QtyEvent)
    (h : ev.cartLine = none ∨ ev.cartLine = some 0) :
    onQuantityChange env s ev = (s, [], SyncResult.noop) := by
  rcases h with h | h <;> simp [onQuantityChange, h]

/-- Witness for C8 at a concrete event with `cartLine = some 0`. -/
theorem onQuantityChange_falsy_line_noop_witness :
    (QtyEvent.mk 3 (some 0)).cartLine = some 0 ∧
    onQuantityChange (Env.mk true (fun _ => none))
      (ComponentState.mk (some "s1") false true [] [] [] []) (QtyEvent.mk 3 (some 0)) =
      (ComponentState.mk (some "s1") false true [] [] [] [], [], SyncResult.noop) :=
  ⟨rfl, onQuantityChange_falsy_line_noop _ _ _ (Or.inr rfl)⟩

/-- Claim C9: when `data-section-id` is absent, the `sectionId` getter throws
`Section id missing`; `updateQuantity` has already added the
`cart-items-disabled` class, and it throws before issuing any request, so the
class stays in place. -/
theorem updateQuantityStart_missing_sectionId (s : ComponentState) (cfg : UpdateConfig)
    (h : s.sectionIdAttr = none) :
    updateQuantityStart s cfg =
      ({ s with disabled := true }, [], SyncResult.thrown "Section id missing") := by
  simp [updateQuantityStart, disableCartItems, sectionId, h]

/-- Witness for C9 at a concrete state without `data-section-id`. -/
theorem updateQuantityStart_missing_sectionId_witness :
    (ComponentState.mk none false true [] [] [] []).sectionIdAttr = none ∧
    updateQuantityStart (ComponentState.mk none false true [] [] [] [])
        (UpdateConfig.mk 1 2 "change") =
      (ComponentState.mk none true true [] [] [] [], [], SyncResult.thrown "Section id missing") :=
  ⟨rfl, updateQuantityStart_missing_sectionId _ _ rfl⟩

/-- Claim C4: `updateQuantity` adds the `cart-items-disabled` class before the
fetch is issued, and for every outcome of the request the `finally` handler
removes it again when the request settles. -/
theorem updateQuantity_disabled_during_request (s : ComponentState) (cfg : UpdateConfig) :
    (updateQuantityStart s cfg).1.disabled = true ∧
    ∀ (env : Env) (sid : String) (outcome : FetchOutcome),
      (updateQuantitySettle env (updateQuantityStart s cfg).1 cfg sid outcome).1.disabled =
        false := by
  constructor
  · unfold updateQuantityStart
    dsimp only
    split <;> rfl
  · intro env sid outcome
    exact settle_disabled_false env _ cfg sid outcome

/-- Claim C5: every error surfacing in the promise chain — a rejected fetch, a
`JSON.parse` failure, or a `not found` error thrown while handling a
server-reported cart error — reaches the single `catch` handler, which logs it
to the console; nothing else is done with it (in particular no morph, dispatch
or retry). -/
theorem updateQuantity_errors_caught_logged (env : Env) (s : ComponentState)
    (cfg : UpdateConfig) (sid : String) :
    (∀ m, (updateQuantitySettle env s cfg sid (.reject m)).2 = [Effect.consoleError m]) ∧
    (updateQuantitySettle env s cfg sid (.resolve none)).2 =
      [Effect.consoleError jsonSyntaxErrorMsg] ∧
    (∀ (p : ParsedResponse) (errs m : String), p.errors = some errs → truthy errs = true →
      handleCartError s cfg.line errs = .error m →
      (updateQuantitySettle env s cfg sid (.resolve (some p))).2 =
        [Effect.resetShimmer, Effect.consoleError m]) := by
  refine ⟨fun m => rfl, rfl, ?_⟩
  intro p errs m hp ht hh
  simp [updateQuantitySettle, hp, ht, hh]

/-- Witness for C5: a state with no quantity selectors makes
`#handleCartError` throw `Quantity input not found`, which is logged. -/
theorem updateQuantity_errors_caught_logged_witness :
    (ParsedResponse.mk (some "Invalid quantity") none none).errors = some "Invalid quantity" ∧
    truthy "Invalid quantity" = true ∧
    handleCartError (ComponentState.mk (some "s1") true true [] [] [] []) 1 "Invalid quantity" =
      .error "Quantity input not found" ∧
    (updateQuantitySettle (Env.mk true (fun _ => none))
        (ComponentState.mk (some "s1") true true [] [] [] [])
        (UpdateConfig.mk 1 2 "change") "s1"
        (.resolve (some (ParsedResponse.mk (some "Invalid quantity") none none)))).2 =
      [Effect.resetShimmer, Effect.consoleError "Quantity input not found"] :=
  ⟨rfl, rfl, rfl,
    (updateQuantity_errors_caught_logged (Env.mk true (fun _ => none))
      (ComponentState.mk (some "s1") true true [] [] [] [])
      (UpdateConfig.mk 1 2 "change") "s1").2.2 _ "Invalid quantity" _ rfl rfl rfl⟩

/-- Claim C3: on a response without an `errors` field the component morphs its
section with `sections[sectionId]`, and before the morph it dispatches a
`CartUpdateEvent` whose item count is parsed from the hidden
`[ref="cartItemCount"]` element of the fragment, or 0 when that element is
absent. -/
theorem success_response_dispatch_then_morph (env : Env) (s : ComponentState)
    (cfg : UpdateConfig) (sid : String) (p : ParsedResponse)
    (secs : List (String × String)) (html : String)
    (herr : p.errors = none) (hsec : p.sections = some secs)
    (hhtml : secs.lookup sid = some html) :
    (updateQuantitySettle env s cfg sid (.resolve (some p))).2 =
      [Effect.resetShimmer] ++
      (if p.items.isSome then [Effect.updateQuantitySelectors] else []) ++
      [Effect.dispatchCartUpdate sid (newCartItemCount env html),
       Effect.morph sid (some html), Effect.updateButtonStates] ∧
    (env.cartItemCountText html = none → newCartItemCount env html = some 0) ∧
    (∀ t n, env.cartItemCountText html = some t → parseIntJs t = some n →
      newCartItemCount env html = some n) := by
  refine ⟨?_, ?_, ?_⟩
  · simp [updateQuantitySettle, herr, truthy, hsec, hhtml]
  · intro h
    simp [newCartItemCount, h]
  · intro t n h1 h2
    have htr : truthy t = true := by
      rw [truthy, bne_iff_ne]
      intro he
      subst he
      rw [show parseIntJs "" = none by decide] at h2
      exact Option.noConfusion h2
    simp [newCartItemCount, h1, htr, h2]

/-- Witness for C3: one section whose fragment carries a hidden item count of
7; the dispatch precedes the morph in the trace. -/
theorem success_response_dispatch_then_morph_witness :
    (ParsedResponse.mk none (some [("s1", "frag")]) none).errors = none ∧
    (ParsedResponse.mk none (some [("s1", "frag")]) none).sections = some [("s1", "frag")] ∧
    List.lookup "s1" [("s1", "frag")] = some "frag" ∧
    (updateQuantitySettle (Env.mk true (fun h => if h = "frag" then some "7" else none))
        (ComponentState.mk (some "s1") true true [] [] [] [])
        (UpdateConfig.mk 1 2 "change") "s1"
        (.resolve (some (ParsedResponse.mk none (some [("s1", "frag")]) none)))).2 =
      [Effect.resetShimmer,
       Effect.dispatchCartUpdate "s1"
         (newCartItemCount (Env.mk true (fun h => if h = "frag" then some "7" else none)) "frag"),
       Effect.morph "s1" (some "frag"), Effect.updateButtonStates] ∧
    newCartItemCount (Env.mk true (fun h => if h = "frag" then some "7" else none)) "frag" =
      some 7 := by
  have h := success_response_dispatch_then_morph
    (Env.mk true (fun h => if h = "frag" then some "7" else none))
    (ComponentState.mk (some "s1") true true [] [] [] [])
    (UpdateConfig.mk 1 2 "change") "s1"
    (ParsedResponse.mk none (some [("s1", "frag")]) none) [("s1", "frag")] "frag"
    rfl rfl (by decide)
  refine ⟨rfl, rfl, by decide, ?_, ?_⟩
  · simpa using h.1
  · exact h.2.2 "7" 7 (by decide) (by decide)

/-- Unfolding `onLineItemRemove` when the section id is present and the row
at zero-based index `line - 1` exists. -/
theorem onLineItemRemove_unfold (env : Env) (s : ComponentState) (line : Int)
    (sidv : String) (target : CartItemRow)
    (hsid : s.sectionIdAttr = some sidv) (hne : sidv ≠ "")
    (htarget : jsIndex s.cartItemRows (line - 1) = some target) :
    onLineItemRemove env s line =
      ({ s with disabled := true, cartItemRows :=
          if env.reducedMotion then
            s.cartItemRows.filter (fun row =>
              !(decide (row.id ∈ ((target :: s.cartItemRows.filter
                  (fun row2 => row2.parentKey == target.key)).map (·.id)))))
          else
            s.cartItemRows.map (fun row =>
              if row.id ∈ ((target :: s.cartItemRows.filter
                  (fun row2 => row2.parentKey == target.key)).map (·.id)) then
                { row with removing := true, pendingRemove := true }
              else row) },
       (if s.hasCartTotal then [Effect.shimmerTotal] else []) ++
         [Effect.request line 0 "clear" sidv],
       SyncResult.started sidv) := by
  simp only [onLineItemRemove, updateQuantityStart, disableCartItems, sectionId, hsid, hne,
    htarget]
  by_cases h : env.reducedMotion <;> simp [h, hne, htarget]

/-- Unfolding the `change` branch of `#onQuantityChange` when the section id
is present and the row at zero-based index `line - 1` exists. -/
theorem onQuantityChange_change_unfold (env : Env) (s : ComponentState) (ev : QtyEvent)
    (line : Int) (sidv : String) (row : CartItemRow)
    (hline : ev.cartLine = some line) (hlz : line ≠ 0) (hq : ev.quantity ≠ 0)
    (hsid : s.sectionIdAttr = some sidv) (hne : sidv ≠ "")
    (hrow : jsIndex s.cartItemRows (line - 1) = some row) :
    onQuantityChange env s ev =
      ({ s with disabled := true },
       ((if s.hasCartTotal then [Effect.shimmerTotal] else []) ++
         [Effect.request line ev.quantity "change" sidv]) ++
         (if row.hasTextComponent then [Effect.shimmerRow (line - 1).toNat] else []),
       SyncResult.started sidv) := by
  simp [onQuantityChange, updateQuantityStart, disableCartItems, sectionId, hline, hlz, hq,
    hsid, hne, hrow]

/-- The removal branch of `#onQuantityChange` delegates to `onLineItemRemove`. -/
theorem onQuantityChange_removal (env : Env) (s : ComponentState) (ev : QtyEvent)
    (line : Int) (hline : ev.cartLine = some line) (hlz : line ≠ 0)
    (hq : ev.quantity = 0) :
    onQuantityChange env s ev = onLineItemRemove env s line := by
  simp [onQuantityChange, hline, hlz, hq]

theorem not_mem_map_filter {α β : Type} (l : List α) (f : α → β) (q : α → Bool) (i : β)
    (h : i ∉ l.map f) : i ∉ (l.filter q).map f := by
  intro hm
  obtain ⟨x, hx, hfx⟩ := List.mem_map.mp hm
  exact h (List.mem_map.mpr ⟨x, (List.mem_filter.mp hx).1, hfx⟩)

theorem not_mem_ids_of_filter_mem (rows : List CartItemRow) (ids : List Nat)
    (i : Nat) (hi : i ∈ ids) :
    i ∉ ((rows.filter (fun row => !(decide (row.id ∈ ids)))).map (·.id)) := by
  intro hm
  obtain ⟨row, hrow, hid⟩ := List.mem_map.mp hm
  have hpred := (List.mem_filter.mp hrow).2
  simp only [Bool.not_eq_eq_eq_not, Bool.not_true, decide_eq_false_iff_not] at hpred
  exact hpred (hid ▸ hi)

theorem not_mem_ids_after_mark (rows : List CartItemRow) (ids : List Nat)
    (i : Nat) (hi : i ∈ ids) :
    i ∉ (((rows.map (fun row =>
        if row.id ∈ ids then { row with removing := true, pendingRemove := true }
        else row)).filter (fun row => !row.pendingRemove)).map (·.id)) := by
  intro hm
  obtain ⟨row, hrow, hid⟩ := List.mem_map.mp hm
  obtain ⟨hrowmem, hpend⟩ := List.mem_filter.mp hrow
  obtain ⟨r0, hr0, hfr⟩ := List.mem_map.mp hrowmem
  by_cases h : r0.id ∈ ids
  · rw [if_pos h] at hfr
    rw [← hfr] at hpend
    exact Bool.noConfusion hpend
  · rw [if_neg h] at hfr
    rw [← hfr] at hid
    exact h (hid ▸ hi)

theorem mark_preserves_ids (rows : List CartItemRow) (ids : List Nat) :
    ((rows.map (fun row =>
        if row.id ∈ ids then { row with removing := true, pendingRemove := true }
        else row)).map (·.id)) = rows.map (·.id) := by
  rw [List.map_map]
  apply List.map_congr_left
  intro r hr
  by_cases h : r.id ∈ ids <;> simp [Function.comp, h]

theorem filter_unmarked (rows : List CartItemRow) (p : CartItemRow → Prop)
    [DecidablePred p] (hpend : ∀ r ∈ rows, r.pendingRemove = false) :
    ((rows.map (fun row =>
        if p row then { row with removing := true, pendingRemove := true }
        else row)).filter (fun row => !row.pendingRemove)) =
      rows.filter (fun row => !(decide (p row))) := by
  induction rows with
  | nil => rfl
  | cons hd tl ih =>
    have hh := hpend hd (by simp)
    have ih2 := ih (fun r hr => hpend r (by simp [hr]))
    by_cases hp : p hd
    · simp [List.filter_cons, hp, ih2]
    · simp [List.filter_cons, hp, ih2, hh]

/-- Claim C2: a quantity-selector update with quantity 0 and a truthy line
sends a cart-change request with quantity 0 and action `clear`, and removes
that line's row: immediately when reduced motion is preferred, otherwise only
once its removal animation has ended. -/
theorem quantity_zero_removes_line (env : Env) (s : ComponentState) (ev : QtyEvent)
    (line : Int) (sidv : String) (target : CartItemRow)
    (hline : ev.cartLine = some line) (hlz : line ≠ 0) (hq : ev.quantity = 0)
    (hsid : s.sectionIdAttr = some sidv) (hne : sidv ≠ "")
    (htarget : jsIndex s.cartItemRows (line - 1) = some target) :
    Effect.request line 0 "clear" sidv ∈ (onQuantityChange env s ev).2.1 ∧
    (env.reducedMotion = true →
      target.id ∉ ((onQuantityChange env s ev).1.cartItemRows.map (·.id))) ∧
    (env.reducedMotion = false →
      target.id ∈ ((onQuantityChange env s ev).1.cartItemRows.map (·.id)) ∧
      target.id ∉ ((afterAnimations (onQuantityChange env s ev).1).cartItemRows.map (·.id))) := by
  rw [onQuantityChange_removal env s ev line hline hlz hq,
    onLineItemRemove_unfold env s line sidv target hsid hne htarget]
  have hid : target.id ∈ ((target :: s.cartItemRows.filter
      (fun row2 => row2.parentKey == target.key)).map (·.id)) := by
    simp
  refine ⟨by simp, ?_, ?_⟩
  · intro hrm
    simp only [hrm, if_true]
    exact not_mem_ids_of_filter_mem _ _ _ hid
  · intro hrm
    simp only [hrm, if_false, Bool.false_eq_true]
    constructor
    · rw [mark_preserves_ids]
      exact List.mem_map.mpr ⟨target, jsIndex_mem htarget, rfl⟩
    · exact not_mem_ids_after_mark _ _ _ hid

/-- Witness for C2: a two-row cart (the second row nested under the first) in
reduced motion; removing line 1 drops both rows at once. -/
theorem quantity_zero_removes_line_witness :
    (QtyEvent.mk 0 (some 1)).cartLine = some 1 ∧
    (QtyEvent.mk 0 (some 1)).quantity = 0 ∧
    jsIndex [CartItemRow.mk 10 (some "k1") none false false true,
             CartItemRow.mk 11 none (some "k1") false false true] ((1 : Int) - 1) =
      some (CartItemRow.mk 10 (some "k1") none false false true) ∧
    Effect.request 1 0 "clear" "s1" ∈
      (onQuantityChange (Env.mk true (fun _ => none))
        (ComponentState.mk (some "s1") false true
          [CartItemRow.mk 10 (some "k1") none false false true,
           CartItemRow.mk 11 none (some "k1") false false true] [] [] [])
        (QtyEvent.mk 0 (some 1))).2.1 ∧
    (10 : Nat) ∉ (((onQuantityChange (Env.mk true (fun _ => none))
        (ComponentState.mk (some "s1") false true
          [CartItemRow.mk 10 (some "k1") none false false true,
           CartItemRow.mk 11 none (some "k1") false false true] [] [] [])
        (QtyEvent.mk 0 (some 1))).1.cartItemRows).map (·.id)) := by
  have h := quantity_zero_removes_line (Env.mk true (fun _ => none))
    (ComponentState.mk (some "s1") false true
      [CartItemRow.mk 10 (some "k1") none false false true,
       CartItemRow.mk 11 none (some "k1") false false true] [] [] [])
    (QtyEvent.mk 0 (some 1)) 1 "s1" (CartItemRow.mk 10 (some "k1") none false false true)
    rfl (by decide) rfl rfl (by decide) (by decide)
  exact ⟨rfl, rfl, by decide, h.1, h.2.1 rfl⟩

theorem mem_nested_ids_iff (rows : List CartItemRow) (target row : CartItemRow)
    (hnodup : (rows.map (·.id)).Nodup) (hrow : row ∈ rows) :
    (row.id ∈ ((rows.filter (fun row2 => row2.parentKey == target.key)).map (·.id))) ↔
      row.parentKey = target.key := by
  constructor
  · intro hm
    obtain ⟨r2, hr2, hid⟩ := List.mem_map.mp hm
    obtain ⟨hr2mem, hr2p⟩ := List.mem_filter.mp hr2
    have heq : r2 = row := List.inj_on_of_nodup_map hnodup hr2mem hrow hid
    rw [← heq]
    exact beq_iff_eq.mp hr2p
  · intro h
    exact List.mem_map.mpr ⟨row, List.mem_filter.mpr ⟨hrow, by simp [h]⟩, rfl⟩

/-- Claim C10: removing a line removes its nested lines too, and nothing
else: when the rows have distinct node identities and no removal is already
pending, the rows remaining after the removal (and its animations) are
exactly those that are neither the target row nor carry the target's
`data-key` as their `data-parent-key` (JS `===`: two absent attributes
compare equal). -/
theorem remove_line_removes_nested_only (env : Env) (s : ComponentState) (line : Int)
    (sidv : String) (target : CartItemRow)
    (hsid : s.sectionIdAttr = some sidv) (hne : sidv ≠ "")
    (htarget : jsIndex s.cartItemRows (line - 1) = some target)
    (hnodup : (s.cartItemRows.map (·.id)).Nodup)
    (hpend : ∀ r ∈ s.cartItemRows, r.pendingRemove = false) :
    (afterAnimations (onLineItemRemove env s line).1).cartItemRows =
      s.cartItemRows.filter (fun row =>
        !(decide (row.id = target.id ∨ row.parentKey = target.key))) := by
  rw [onLineItemRemove_unfold env s line sidv target hsid hne htarget]
  have hpt : ∀ row ∈ s.cartItemRows,
      (decide (row.id ∈ ((target :: s.cartItemRows.filter
          (fun row2 => row2.parentKey == target.key)).map (·.id))) : Bool) =
        decide (row.id = target.id ∨ row.parentKey = target.key) := by
    intro row hrow
    apply decide_eq_decide.mpr
    rw [List.map_cons, List.mem_cons]
    exact or_congr Iff.rfl (mem_nested_ids_iff s.cartItemRows target row hnodup hrow)
  by_cases hrm : env.reducedMotion
  · simp only [hrm, if_true]
    unfold afterAnimations
    dsimp only
    rw [List.filter_eq_self.mpr]
    · exact List.filter_congr (fun row hrow => by rw [hpt row hrow])
    · intro r hr
      have := hpend r (List.mem_filter.mp hr).1
      simp [this]
  · simp only [hrm, if_false, Bool.false_eq_true]
    unfold afterAnimations
    dsimp only
    rw [filter_unmarked s.cartItemRows
      (fun row => row.id ∈ ((target :: s.cartItemRows.filter
        (fun row2 => row2.parentKey == target.key)).map (·.id))) hpend]
    exact List.filter_congr (fun row hrow => by rw [hpt row hrow])

/-- Witness for C10: removing line 1 of a three-row cart removes the target
and its nested row but keeps the unrelated third row. -/
theorem remove_line_removes_nested_only_witness :
    jsIndex [CartItemRow.mk 10 (some "k1") none false false true,
             CartItemRow.mk 11 none (some "k1") false false true,
             CartItemRow.mk 12 (some "k2") none false false true] ((1 : Int) - 1) =
      some (CartItemRow.mk 10 (some "k1") none false false true) ∧
    (afterAnimations (onLineItemRemove (Env.mk false (fun _ => none))
        (ComponentState.mk (some "s1") false true
          [CartItemRow.mk 10 (some "k1") none false false true,
           CartItemRow.mk 11 none (some "k1") false false true,
           CartItemRow.mk 12 (some "k2") none false false true] [] [] []) 1).1).cartItemRows =
      [CartItemRow.mk 12 (some "k2") none false false true] := by
  have h := remove_line_removes_nested_only (Env.mk false (fun _ => none))
    (ComponentState.mk (some "s1") false true
      [CartItemRow.mk 10 (some "k1") none false false true,
       CartItemRow.mk 11 none (some "k1") false false true,
       CartItemRow.mk 12 (some "k2") none false false true] [] [] []) 1 "s1"
    (CartItemRow.mk 10 (some "k1") none false false true)
    rfl (by decide) (by decide) (by decide) (by decide)
  refine ⟨by decide, ?_⟩
  rw [h]
  decide

/-- Claim C7: cart lines are 1-indexed: a quantity change shimmers the row at
zero-based index `line - 1`, a removal removes the row found at zero-based
index `line - 1`, and a cart error reverts the input of the quantity selector
at zero-based index `line - 1`. -/
theorem lines_one_indexed (env : Env) (s : ComponentState) (line : Int) (sidv : String)
    (hsid : s.sectionIdAttr = some sidv) (hne : sidv ≠ "") :
    (∀ ev row, ev.cartLine = some line → line ≠ 0 → ev.quantity ≠ 0 →
      jsIndex s.cartItemRows (line - 1) = some row → row.hasTextComponent = true →
      Effect.shimmerRow (line - 1).toNat ∈ (onQuantityChange env s ev).2.1) ∧
    (∀ target, jsIndex s.cartItemRows (line - 1) = some target →
      target.id ∉
        ((afterAnimations (onLineItemRemove env s line).1).cartItemRows.map (·.id))) ∧
    (∀ errs sel inp, jsIndex s.quantitySelectors (line - 1) = some sel →
      sel.input = some inp →
      (s.cartItemErrorTexts.lookup line).isSome = true →
      (s.cartItemErrorHidden.lookup line).isSome = true →
      (handleCartError s line errs).toOption.map
          (fun s2 => jsIndex s2.quantitySelectors (line - 1)) =
        some (some ({ sel with input := some { inp with value := inp.defaultValue } }))) := by
  refine ⟨?_, ?_, ?_⟩
  · intro ev row hline hlz hq hrow htc
    rw [onQuantityChange_change_unfold env s ev line sidv row hline hlz hq hsid hne hrow]
    simp [htc]
  · intro target htarget
    rw [onLineItemRemove_unfold env s line sidv target hsid hne htarget]
    have hid : target.id ∈ ((target :: s.cartItemRows.filter
        (fun row2 => row2.parentKey == target.key)).map (·.id)) := by simp
    by_cases hrm : env.reducedMotion
    · simp only [hrm, if_true]
      unfold afterAnimations
      dsimp only
      exact not_mem_map_filter _ _ _ _ (not_mem_ids_of_filter_mem _ _ _ hid)
    · simp only [hrm, if_false, Bool.false_eq_true]
      unfold afterAnimations
      dsimp only
      exact not_mem_ids_after_mark _ _ _ hid
  · intro errs sel inp hsel hinp htext hhid
    obtain ⟨s2, hok, h1, -, -, -, -⟩ :=
      handleCartError_ok s line errs sel inp hsel hinp htext hhid
    rw [hok]
    simp [Except.toOption, h1]

/-- Witness for C7 on a one-row, one-selector cart at line 1: the shimmer
targets index 0, the removal drops the row found at index 0, and the cart
error reverts the selector at index 0. -/
theorem lines_one_indexed_witness :
    (ComponentState.mk (some "s1") false true
        [CartItemRow.mk 10 (some "k1") none false false true]
        [QuantitySelector.mk (some (QuantityInput.mk "5" "2"))] [(1, "")]
        [(1, true)]).sectionIdAttr = some "s1" ∧
    Effect.shimmerRow 0 ∈
      (onQuantityChange (Env.mk true (fun _ => none))
        (ComponentState.mk (some "s1") false true
          [CartItemRow.mk 10 (some "k1") none false false true]
          [QuantitySelector.mk (some (QuantityInput.mk "5" "2"))] [(1, "")] [(1, true)])
        (QtyEvent.mk 4 (some 1))).2.1 ∧
    (10 : Nat) ∉
      (((afterAnimations (onLineItemRemove (Env.mk true (fun _ => none))
          (ComponentState.mk (some "s1") false true
            [CartItemRow.mk 10 (some "k1") none false false true]
            [QuantitySelector.mk (some (QuantityInput.mk "5" "2"))] [(1, "")] [(1, true)])
          1).1).cartItemRows).map (·.id)) ∧
    (handleCartError (ComponentState.mk (some "s1") false true
        [CartItemRow.mk 10 (some "k1") none false false true]
        [QuantitySelector.mk (some (QuantityInput.mk "5" "2"))] [(1, "")] [(1, true)])
        1 "boom").toOption.map
        (fun s2 => jsIndex s2.quantitySelectors ((1 : Int) - 1)) =
      some (some (QuantitySelector.mk (some (QuantityInput.mk "2" "2")))) := by
  have h := lines_one_indexed (Env.mk true (fun _ => none))
    (ComponentState.mk (some "s1") false true
      [CartItemRow.mk 10 (some "k1") none false false true]
      [QuantitySelector.mk (some (QuantityInput.mk "5" "2"))] [(1, "")] [(1, true)])
    1 "s1" rfl (by decide)
  refine ⟨rfl, ?_, ?_, ?_⟩
  · exact h.1 (QtyEvent.mk 4 (some 1)) (CartItemRow.mk 10 (some "k1") none false false true)
      rfl (by decide) (by decide) (by decide) rfl
  · exact h.2.1 (CartItemRow.mk 10 (some "k1") none false false true) (by decide)
  · exact h.2.2 "boom" (QuantitySelector.mk (some (QuantityInput.mk "5" "2")))
      (QuantityInput.mk "5" "2") (by decide) rfl (by decide) (by decide)

theorem countRequests_append (a b : List Effect) :
    countRequests (a ++ b) = countRequests a + countRequests b := by
  simp [countRequests, List.filter_append]

theorem countRequests_start_le_one (s : ComponentState) (cfg : UpdateConfig) :
    countRequests (updateQuantityStart s cfg).2.1 ≤ 1 := by
  unfold updateQuantityStart
  dsimp only
  split
  · simp [countRequests]
  · by_cases h : (disableCartItems s).hasCartTotal <;>
      simp [h, countRequests, isRequest, List.filter_cons]

theorem onLineItemRemove_effects_eq (env : Env) (s : ComponentState) (line : Int) :
    (onLineItemRemove env s line).2.1 =
      (updateQuantityStart s { line := line, quantity := 0, action := "clear" }).2.1 := by
  rcases hq : updateQuantityStart s { line := line, quantity := 0, action := "clear" } with
    ⟨s1, eff, r⟩
  cases r with
  | noop =>
    simp only [onLineItemRemove, hq]
    cases hj : jsIndex s1.cartItemRows (line - 1)
    · simp [hj]
    · by_cases hrm : env.reducedMotion <;> simp [hj, hrm]
  | thrown m => simp [onLineItemRemove, hq]
  | started sid =>
    simp only [onLineItemRemove, hq]
    cases hj : jsIndex s1.cartItemRows (line - 1)
    · simp [hj]
    · by_cases hrm : env.reducedMotion <;> simp [hj, hrm]

theorem onQuantityChange_at_most_one_request (env : Env) (s : ComponentState)
    (ev : QtyEvent) : countRequests (onQuantityChange env s ev).2.1 ≤ 1 := by
  rcases hline : ev.cartLine with _ | line
  · simp [onQuantityChange, hline, countRequests]
  · by_cases hlz : line = 0
    · simp [onQuantityChange, hline, hlz, countRequests]
    · by_cases hq : ev.quantity = 0
      · rw [onQuantityChange_removal env s ev line hline hlz hq,
          onLineItemRemove_effects_eq]
        exact countRequests_start_le_one s _
      · rcases hst : updateQuantityStart s
          { line := line, quantity := ev.quantity, action := "change" } with ⟨s1, eff, r⟩
        have heff : countRequests eff ≤ 1 := by
          have := countRequests_start_le_one s
            { line := line, quantity := ev.quantity, action := "change" }
          rwa [hst] at this
        cases r with
        | noop =>
          simp only [onQuantityChange, hline, hlz, hq, if_neg, hst]
          cases hj : jsIndex s1.cartItemRows (line - 1) with
          | none => simpa [hj] using heff
          | some row =>
            simp only [hj]
            by_cases htc : row.hasTextComponent <;>
              simpa [htc, countRequests_append, countRequests, isRequest] using heff
        | thrown m => simpa [onQuantityChange, hline, hlz, hq, hst] using heff
        | started sid =>
          simp only [onQuantityChange, hline, hlz, hq, if_neg, hst]
          cases hj : jsIndex s1.cartItemRows (line - 1) with
          | none => simpa [hj] using heff
          | some row =>
            simp only [hj]
            by_cases htc : row.hasTextComponent <;>
              simpa [htc, countRequests_append, countRequests, isRequest] using heff

theorem debounceFired_burst {α : Type} (delay : Nat) :
    ∀ (evs : List (Nat × α)) (hne : evs ≠ [])
      (_ : List.Chain' (fun p q => q.1 < p.1 + delay) evs),
      debounceFired delay evs = [(evs.getLast hne).2]
  | [], hne, _ => absurd rfl hne
  | [(_, _)], _, _ => by simp [debounceFired]
  | (t, a) :: (t2, b) :: rest, _, hb => by
    have h1 : t2 < t + delay := (List.chain'_cons.mp hb).1
    have h2 := (List.chain'_cons.mp hb).2
    have ih := debounceFired_burst delay ((t2, b) :: rest) (by simp) h2
    simp only [debounceFired]
    rw [if_neg (by omega), ih]
    simp [List.getLast]

/-- Claim C6 (debounce modelled from the spec): the quantity-change listener
is a 300 ms trailing-edge debounce of `#onQuantityChange`, so a burst of
events each arriving less than 300 ms after the previous one runs the handler
once, with the last event of the burst, and one handler run issues at most
one quantity update request. -/
theorem debounced_burst_single_request (evs : List (Nat × QtyEvent)) (hne : evs ≠ [])
    (hb : List.Chain' (fun p q => q.1 < p.1 + 300) evs) :
    debounceFired 300 evs = [(evs.getLast hne).2] ∧
    ∀ (env : Env) (s : ComponentState),
      countRequests (onQuantityChange env s (evs.getLast hne).2).2.1 ≤ 1 :=
  ⟨debounceFired_burst 300 evs hne hb,
   fun env s => onQuantityChange_at_most_one_request env s _⟩

/-- Witness for C6: three events at 0, 100 and 250 ms collapse to the last
one, which issues at most one request. -/
theorem debounced_burst_single_request_witness :
    ([(0, QtyEvent.mk 3 (some 1)), (100, QtyEvent.mk 4 (some 1)),
      (250, QtyEvent.mk 5 (some 1))] : List (Nat × QtyEvent)) ≠ [] ∧
    List.Chain' (fun p q => q.1 < p.1 + 300)
      [(0, QtyEvent.mk 3 (some 1)), (100, QtyEvent.mk 4 (some 1)),
       (250, QtyEvent.mk 5 (some 1))] ∧
    debounceFired 300
      [(0, QtyEvent.mk 3 (some 1)), (100, QtyEvent.mk 4 (some 1)),
       (250, QtyEvent.mk 5 (some 1))] = [QtyEvent.mk 5 (some 1)] ∧
    countRequests (onQuantityChange (Env.mk true (fun _ => none))
        (ComponentState.mk (some "s1") false true [] [] [] [])
        (QtyEvent.mk 5 (some 1))).2.1 ≤ 1 := by
  have h := debounced_burst_single_request
    [(0, QtyEvent.mk 3 (some 1)), (100, QtyEvent.mk 4 (some 1)),
     (250, QtyEvent.mk 5 (some 1))] (by decide) (by norm_num [List.chain'_cons])
  exact ⟨by decide, by norm_num [List.chain'_cons], h.1,
    h.2 (Env.mk true (fun _ => none)) (ComponentState.mk (some "s1") false true [] [] [] [])⟩

end CartItems
